import Mathlib

/-!
# GeoFieldTracker storage layer: a shallow embedding

This file embeds the persistence layer of the GeoFieldTracker repository in
Lean 4 and proves properties of it.  Two backends are modelled:

* `FileStorage` (`src/unnamed/part_000`): the JSON-file-snapshot backend.
  Its in-process state is a collection of JS `Map`s keyed by id strings; we
  model each `Map` as an association list in insertion order (`Map.set`
  replaces in place, `Map.values()` iterates in insertion order).  File I/O
  (`saveUsers` etc.) only mirrors the in-memory maps to disk and is not
  observable through the storage contract, so it is not part of the state.
* `MemStorage` (`src/server/routes.ts`): the volatile in-memory backend.

Wall-clock reads (`new Date()`, `Date.now()`) and the random components of
id generation are passed as explicit parameters.  Dates are modelled as
`Nat` timestamps.  JS `number` coordinate values are carried opaquely as
`Int` (none of the embedded operations computes with them).  Fallible
operations (the source `throw`s) return `Except String`.
-/

namespace GeoTracker

/-! ## JS string helpers -/

/-- The hex digit characters produced by JS `Number.prototype.toString(16)`:
`0`-`9` then lowercase `a`-`f`. -/
def toHexDigitChar (n : Nat) : Char :=
  if n < 10 then Char.ofNat (48 + n) else Char.ofNat (87 + n)

/-- JS `n.toString(16)` for a nonnegative integer `n`: minimal-length
lowercase hex, with `0` rendered as `"0"`. -/
def natToHex (n : Nat) : List Char :=
  if h : n < 16 then [toHexDigitChar n]
  else natToHex (n / 16) ++ [toHexDigitChar (n % 16)]
decreasing_by
  exact Nat.div_lt_self (Nat.lt_of_lt_of_le (by norm_num) (Nat.le_of_not_lt h)) (by norm_num)

/-- JS `String.prototype.padStart(w, c)` on a char list: pads on the left up
to width `w`; a string already at least `w` long is returned unchanged. -/
def padStartChars (w : Nat) (c : Char) (l : List Char) : List Char :=
  List.replicate (w - l.length) c ++ l

/-- `n.toString(16).padStart(w, "0")`, as used by `generateObjectId`. -/
def jsToStringHexPad (w : Nat) (n : Nat) : List Char :=
  padStartChars w '0' (natToHex n)

/-- Fixed-width big-endian base-16 rendering (exactly `w` digits, most
significant first).  For `n < 16 ^ w` (and `w ≥ 1`) this agrees with
`jsToStringHexPad w n`; it is the convenient form for proofs. -/
def natToHexPadL : Nat → Nat → List Char
  | 0, _ => []
  | w + 1, n => natToHexPadL w (n / 16) ++ [toHexDigitChar (n % 16)]

/-- `FileStorage.generateObjectId` (src/unnamed/part_000, lines 145-159).
The wall-clock seconds value and the three `Math.random()`-derived
components are explicit parameters:
`timestamp = floor(Date.now() / 1000)`, `machineId = floor(random * 16777215)`,
`processId = floor(random * 65535)`, `counter = floor(random * 16777215)`. -/
def generateObjectId (timestamp machineId processId counter : Nat) : String :=
  ⟨jsToStringHexPad 8 timestamp ++ jsToStringHexPad 6 machineId ++
    jsToStringHexPad 4 processId ++ jsToStringHexPad 6 counter⟩

/-- A hexadecimal digit character, either case. -/
def isHexChar (c : Char) : Bool :=
  c.isDigit || ('a' ≤ c && c ≤ 'f') || ('A' ≤ c && c ≤ 'F')

/-- Modelled from the spec: `isValidObjectId` is imported from
`@shared/schema`, which is not under `src/`.  The spec (sections 2, 4.2 and
7) defines well-formed ids as "the 24-hex format" / "24 hex characters"; a
hex digit may be either case (the generator emits lowercase). -/
def isValidObjectId (s : String) : Bool :=
  s.length == 24 && s.data.all isHexChar

/-- A lowercase hexadecimal digit character. -/
def isLowerHexChar (c : Char) : Bool :=
  c.isDigit || ('a' ≤ c && c ≤ 'f')

/-- JS truthiness of an optional string field: `undefined` and `""` are
falsy. -/
def jsTruthy : Option String → Bool
  | none => false
  | some s => s != ""

/-- JS `x ? x.toString() : undefined` on an optional string field: an empty
string collapses to `undefined`. -/
def jsOptString : Option String → Option String
  | none => none
  | some s => if s == "" then none else some s

/-- JS `x || d` on an optional string: `undefined` and `""` fall back to
`d`. -/
def jsOrElse (s : Option String) (d : String) : String :=
  match s with
  | none => d
  | some s => if s == "" then d else s

/-- JS `String.prototype.toLowerCase()` on ASCII data: lowercase each
character (`Char.toLower` maps `A`-`Z` to `a`-`z` and fixes the rest). -/
def jsToLowerCase (s : String) : String :=
  ⟨s.data.map Char.toLower⟩

/-! ## JS `Map` model

A JS `Map` keyed by strings, as an association list in insertion order:
`set` on a present key replaces the value in place, otherwise appends. -/

/-- `Map.prototype.get`. -/
def mapGet {α : Type} (m : List (String × α)) (k : String) : Option α :=
  (m.find? fun p => p.1 == k).map fun p => p.2

/-- `Map.prototype.set`. -/
def mapSet {α : Type} (m : List (String × α)) (k : String) (v : α) :
    List (String × α) :=
  match m with
  | [] => [(k, v)]
  | (k', v') :: rest => if k' == k then (k, v) :: rest else (k', v') :: mapSet rest k v

/-- `Map.prototype.delete` (returns the map and whether a key was removed). -/
def mapDelete {α : Type} (m : List (String × α)) (k : String) :
    List (String × α) × Bool :=
  match m with
  | [] => ([], false)
  | (k', v') :: rest =>
    if k' == k then (rest, true)
    else
      let (m', b) := mapDelete rest k
      ((k', v') :: m', b)

/-- `Map.prototype.values`, in insertion order. -/
def mapValues {α : Type} (m : List (String × α)) : List α :=
  m.map fun p => p.2

/-! ## Data model

Entity records, field for field from the `File*` interfaces of
`src/unnamed/part_000`.  Enum-like fields (`role`, `status`, ...) are
strings: the source's update operations assign arbitrary strings through
`as any` casts, so the runtime values are not confined to the declared
unions. -/

/-- A GeoJSON `Point` value `{ type: "Point", coordinates: [lng, lat] }`;
the `type` tag is constant and the coordinate pair is stored longitude
first, as in the source. -/
structure GeoPoint where
  coordinates : Int × Int
deriving DecidableEq, Repr

/-- GeoJSON geometry of a Feature: `{ type, coordinates }` with arity
depending on the tag. -/
inductive Geometry where
  | point (coordinates : Int × Int)
  | lineString (coordinates : List (Int × Int))
  | polygon (coordinates : List (List (Int × Int)))
deriving DecidableEq, Repr

/-- `FileUser` (and the runtime shape `MemStorage.createUser` produces). -/
structure User where
  _id : String
  username : String
  password : String
  name : String
  email : String
  role : String
  teamId : Option String
  lastActive : Option Nat
  currentLocation : Option GeoPoint
  createdAt : Nat
  updatedAt : Nat
deriving DecidableEq, Repr

/-- `FileTeam` (and the runtime shape `MemStorage.createTeam` produces). -/
structure Team where
  _id : String
  name : String
  description : Option String
  status : String
  createdBy : String
  approvedBy : Option String
  createdAt : Nat
  updatedAt : Nat
deriving DecidableEq, Repr

/-- `FileTask`: the task record of the file backend (`status` defaulted at
creation). -/
structure Task where
  _id : String
  title : String
  description : Option String
  status : String
  priority : String
  createdBy : Option String
  assignedTo : Option String
  dueDate : Option Nat
  location : Option GeoPoint
  boundaryId : Option String
  featureId : Option String
  createdAt : Nat
  updatedAt : Nat
deriving DecidableEq, Repr

/-- The task record `MemStorage.createTask` produces by spreading the
insert payload: unlike the file backend it applies no `status` default, so
`status` stays optional until first set. -/
structure MemTask where
  _id : String
  title : String
  description : Option String
  status : Option String
  priority : String
  createdBy : Option String
  assignedTo : Option String
  dueDate : Option Nat
  location : Option GeoPoint
  boundaryId : Option String
  featureId : Option String
  createdAt : Nat
  updatedAt : Nat
deriving DecidableEq, Repr

/-- `FileFeature`. -/
structure Feature where
  _id : String
  name : String
  feaNo : String
  feaState : String
  feaStatus : String
  feaType : String
  specificType : String
  maintenance : String
  maintenanceDate : Option Nat
  geometry : Option Geometry
  remarks : Option String
  createdBy : Option String
  boundaryId : Option String
  createdAt : Nat
  updatedAt : Nat
  lastUpdated : Nat
deriving DecidableEq, Repr

/-- `FileBoundary`; the geometry is always a polygon (list of rings). -/
structure Boundary where
  _id : String
  name : String
  description : Option String
  status : String
  assignedTo : Option String
  geometry : List (List (Int × Int))
  createdAt : Nat
  updatedAt : Nat
deriving DecidableEq, Repr

/-- `FileTaskUpdate` (and the runtime shape `MemStorage.createTaskUpdate`
produces). -/
structure TaskUpdate where
  _id : String
  taskId : String
  userId : String
  comment : Option String
  oldStatus : Option String
  newStatus : Option String
  createdAt : Nat
deriving DecidableEq, Repr

/-- `FileTaskEvidence`. -/
structure TaskEvidence where
  _id : String
  taskId : String
  userId : String
  imageUrl : String
  description : Option String
  createdAt : Nat
deriving DecidableEq, Repr

/-- `InsertUser`: the user-creation payload, with the fields
`FileStorage.createUser` reads from it. -/
structure InsertUser where
  username : String
  password : String
  name : String
  email : String
  role : String
  teamId : Option String
deriving DecidableEq, Repr

/-- `InsertTask`: the task-creation payload, with the fields
`FileStorage.createTask` reads from it. -/
structure InsertTask where
  title : String
  description : Option String
  status : Option String
  priority : String
  createdBy : Option String
  assignedTo : Option String
  dueDate : Option Nat
  location : Option GeoPoint
  boundaryId : Option String
  featureId : Option String
deriving DecidableEq, Repr

/-- `InsertTaskUpdate`. -/
structure InsertTaskUpdate where
  taskId : String
  userId : String
  comment : Option String
  oldStatus : Option String
  newStatus : Option String
deriving DecidableEq, Repr

/-! ## FileStorage operations (src/unnamed/part_000)

Each operation takes the backend state plus explicit parameters for the
effects it performs (`now` for `new Date()` / generated ids for
`generateObjectId()`), and returns the new state alongside the source's
return value.  Operations that `throw` return `Except String`. -/

/-- The in-process state of `FileStorage`: its seven entity `Map`s. -/
structure FileState where
  users : List (String × User)
  tasks : List (String × Task)
  features : List (String × Feature)
  boundaries : List (String × Boundary)
  taskUpdates : List (String × TaskUpdate)
  taskEvidence : List (String × TaskEvidence)
  teams : List (String × Team)
deriving DecidableEq, Repr

namespace FileStorage

/-- `FileStorage.getUser` (lines 368-371). -/
def getUser (st : FileState) (id : String) : Option User :=
  if !isValidObjectId id then none else mapGet st.users id

/-- `FileStorage.getUserByUsername` (lines 373-377): first user, in
insertion order, whose stored username is strictly equal to the query. -/
def getUserByUsername (st : FileState) (username : String) : Option User :=
  (mapValues st.users).find? fun user => user.username == username

/-- `FileStorage.createUser` (lines 379-397). -/
def createUser (st : FileState) (insertUser : InsertUser) (genId : String)
    (now : Nat) : FileState × User :=
  let user : User :=
    { _id := genId
      username := insertUser.username
      password := insertUser.password
      name := insertUser.name
      email := insertUser.email
      role := insertUser.role
      teamId := jsOptString insertUser.teamId
      lastActive := none
      currentLocation := none
      createdAt := now
      updatedAt := now }
  ({ st with users := mapSet st.users genId user }, user)

/-- `FileStorage.updateUserLocation` (lines 399-419). -/
def updateUserLocation (st : FileState) (id : String) (lat lng : Int)
    (now : Nat) : Except String (FileState × User) :=
  if !isValidObjectId id then .error "Invalid user ID"
  else
    match mapGet st.users id with
    | none => .error "User not found"
    | some user =>
      let user' :=
        { user with
          currentLocation := some { coordinates := (lng, lat) }
          lastActive := some now
          updatedAt := now }
      .ok ({ st with users := mapSet st.users id user' }, user')

/-- `FileStorage.getAllFieldUsers` (lines 435-439). -/
def getAllFieldUsers (st : FileState) : List User :=
  (mapValues st.users).filter fun user => user.role == "Field"

/-- `FileStorage.getTeam` (lines 459-462). -/
def getTeam (st : FileState) (id : String) : Option Team :=
  if !isValidObjectId id then none else mapGet st.teams id

/-- `FileStorage.assignUserToTeam` (lines 502-516).  Note: the team id is
only checked for shape, never resolved against the `teams` map. -/
def assignUserToTeam (st : FileState) (userId teamId : String) (now : Nat) :
    Except String (FileState × User) :=
  if !(isValidObjectId userId && isValidObjectId teamId) then
    .error "Invalid user or team ID"
  else
    match mapGet st.users userId with
    | none => .error "User not found"
    | some user =>
      let user' := { user with teamId := some teamId, updatedAt := now }
      .ok ({ st with users := mapSet st.users userId user' }, user')

/-- `FileStorage.createTask` (lines 519-542). -/
def createTask (st : FileState) (insertTask : InsertTask) (genId : String)
    (now : Nat) : FileState × Task :=
  let task : Task :=
    { _id := genId
      title := insertTask.title
      description := insertTask.description
      status := jsOrElse insertTask.status "Unassigned"
      priority := insertTask.priority
      createdBy := jsOptString insertTask.createdBy
      assignedTo := jsOptString insertTask.assignedTo
      dueDate := insertTask.dueDate
      location := insertTask.location
      boundaryId := jsOptString insertTask.boundaryId
      featureId := jsOptString insertTask.featureId
      createdAt := now
      updatedAt := now }
  ({ st with tasks := mapSet st.tasks genId task }, task)

/-- `FileStorage.getTask` (lines 544-547). -/
def getTask (st : FileState) (id : String) : Option Task :=
  if !isValidObjectId id then none else mapGet st.tasks id

/-- `FileStorage.createTaskUpdate` (lines 803-824). -/
def createTaskUpdate (st : FileState) (insertUpdate : InsertTaskUpdate)
    (genId : String) (now : Nat) : Except String (FileState × TaskUpdate) :=
  if !(isValidObjectId insertUpdate.taskId && isValidObjectId insertUpdate.userId) then
    .error "Invalid task or user ID"
  else
    let update : TaskUpdate :=
      { _id := genId
        taskId := insertUpdate.taskId
        userId := insertUpdate.userId
        comment := insertUpdate.comment
        oldStatus := insertUpdate.oldStatus
        newStatus := insertUpdate.newStatus
        createdAt := now }
    .ok ({ st with taskUpdates := mapSet st.taskUpdates genId update }, update)

/-- `FileStorage.updateTaskStatus` (lines 549-579): writes the status, then
appends the audit record through `createTaskUpdate` with the generated id
`genUpdateId`. -/
def updateTaskStatus (st : FileState) (id status userId : String) (now : Nat)
    (genUpdateId : String) : Except String (FileState × Task) :=
  if !(isValidObjectId id && isValidObjectId userId) then
    .error "Invalid task or user ID"
  else
    match mapGet st.tasks id with
    | none => .error "Task not found"
    | some task =>
      let oldStatus := task.status
      let task' := { task with status := status, updatedAt := now }
      let st' := { st with tasks := mapSet st.tasks id task' }
      match
        createTaskUpdate st'
          { taskId := id
            userId := userId
            oldStatus := some oldStatus
            newStatus := some status
            comment := some ("Status updated to " ++ status) }
          genUpdateId now
      with
      | .error e => .error e
      | .ok (st'', _) => .ok (st'', task')

/-- `FileStorage.assignTask` (lines 581-596). -/
def assignTask (st : FileState) (id assignedTo : String) (now : Nat) :
    Except String (FileState × Task) :=
  if !(isValidObjectId id && isValidObjectId assignedTo) then
    .error "Invalid task or user ID"
  else
    match mapGet st.tasks id with
    | none => .error "Task not found"
    | some task =>
      let task' :=
        { task with assignedTo := some assignedTo, status := "Assigned", updatedAt := now }
      .ok ({ st with tasks := mapSet st.tasks id task' }, task')

/-- `FileStorage.getFeature` (lines 667-670). -/
def getFeature (st : FileState) (id : String) : Option Feature :=
  if !isValidObjectId id then none else mapGet st.features id

/-- `FileStorage.getBoundary` (lines 763-766). -/
def getBoundary (st : FileState) (id : String) : Option Boundary :=
  if !isValidObjectId id then none else mapGet st.boundaries id

/-- `FileStorage.getTaskUpdates` (lines 826-831), without the
created-at sort (the sort permutes, never filters). -/
def getTaskUpdates (st : FileState) (taskId : String) : List TaskUpdate :=
  if !isValidObjectId taskId then []
  else (mapValues st.taskUpdates).filter fun update => update.taskId == taskId

end FileStorage

/-! ## MemStorage operations (src/server/routes.ts, lines 978-1342) -/

/-- The in-process state of `MemStorage` restricted to the collections the
modelled operations touch (users, teams, tasks, task updates), together
with their id counters; the feature, boundary and evidence collections are
independent and are never read or written by these operations. -/
structure MemState where
  users : List (String × User)
  teams : List (String × Team)
  tasks : List (String × MemTask)
  taskUpdates : List (String × TaskUpdate)
  userCurrentId : Nat
  teamCurrentId : Nat
  taskCurrentId : Nat
  taskUpdateCurrentId : Nat
deriving DecidableEq, Repr

namespace MemStorage

/-- `MemStorage.generateId` (lines 1000-1002):
`` `${prefix}_${counter.toString().padStart(6, "0")}` ``. -/
def generateId (pre : String) (counter : Nat) : String :=
  pre ++ "_" ++ ⟨padStartChars 6 '0' (toString counter).data⟩

/-- `MemStorage.getUser` (lines 1005-1007): a direct map lookup, with no
id-shape validation. -/
def getUser (st : MemState) (id : String) : Option User :=
  mapGet st.users id

/-- `MemStorage.getUserByUsername` (lines 1009-1013): case-insensitive
comparison via `toLowerCase()`. -/
def getUserByUsername (st : MemState) (username : String) : Option User :=
  (mapValues st.users).find? fun user =>
    jsToLowerCase user.username == jsToLowerCase username

/-- `MemStorage.createUser` (lines 1015-1028). -/
def createUser (st : MemState) (insertUser : InsertUser) (now : Nat) :
    MemState × User :=
  let id := generateId "user" st.userCurrentId
  let user : User :=
    { _id := id
      username := insertUser.username
      password := insertUser.password
      name := insertUser.name
      email := insertUser.email
      role := insertUser.role
      teamId := insertUser.teamId
      lastActive := none
      currentLocation := none
      createdAt := now
      updatedAt := now }
  ({ st with users := mapSet st.users id user, userCurrentId := st.userCurrentId + 1 },
    user)

/-- `MemStorage.getTeam` (lines 1078-1080). -/
def getTeam (st : MemState) (id : String) : Option Team :=
  mapGet st.teams id

/-- `MemStorage.assignUserToTeam` (lines 1114-1129): unlike the file
backend, resolves the team and fails when it is missing. -/
def assignUserToTeam (st : MemState) (userId teamId : String) (now : Nat) :
    Except String (MemState × User) :=
  match mapGet st.users userId with
  | none => .error "User not found"
  | some user =>
    match mapGet st.teams teamId with
    | none => .error "Team not found"
    | some _ =>
      let user' := { user with teamId := some teamId, updatedAt := now }
      .ok ({ st with users := mapSet st.users userId user' }, user')

/-- `MemStorage.createTask` (lines 1132-1143): spreads the insert payload
and stamps `_id`, `createdAt`, `updatedAt`; no field defaults. -/
def createTask (st : MemState) (insertTask : InsertTask) (now : Nat) :
    MemState × MemTask :=
  let id := generateId "task" st.taskCurrentId
  let task : MemTask :=
    { _id := id
      title := insertTask.title
      description := insertTask.description
      status := insertTask.status
      priority := insertTask.priority
      createdBy := insertTask.createdBy
      assignedTo := insertTask.assignedTo
      dueDate := insertTask.dueDate
      location := insertTask.location
      boundaryId := insertTask.boundaryId
      featureId := insertTask.featureId
      createdAt := now
      updatedAt := now }
  ({ st with tasks := mapSet st.tasks id task, taskCurrentId := st.taskCurrentId + 1 },
    task)

/-- `MemStorage.getTask` (lines 1145-1147). -/
def getTask (st : MemState) (id : String) : Option MemTask :=
  mapGet st.tasks id

/-- `MemStorage.updateTaskStatus` (lines 1149-1159): writes the status and
`updatedAt` and returns — the `taskUpdates` collection is not touched. -/
def updateTaskStatus (st : MemState) (id status userId : String) (now : Nat) :
    Except String (MemState × MemTask) :=
  match mapGet st.tasks id with
  | none => .error "Task not found"
  | some task =>
    let task' := { task with status := some status, updatedAt := now }
    .ok ({ st with tasks := mapSet st.tasks id task' }, task')

/-- `MemStorage.assignTask` (lines 1161-1172). -/
def assignTask (st : MemState) (id assignedTo : String) (now : Nat) :
    Except String (MemState × MemTask) :=
  match mapGet st.tasks id with
  | none => .error "Task not found"
  | some task =>
    let task' :=
      { task with assignedTo := some assignedTo, status := some "Assigned", updatedAt := now }
    .ok ({ st with tasks := mapSet st.tasks id task' }, task')

end MemStorage

/-! ## Route-handler pipelines (src/server/routes.ts) -/

/-- Outcome of the `POST /api/users` handler, as seen by the client. -/
inductive CreateUserResult where
  | badRequest (msg : String)
  | created (user : User)
deriving DecidableEq, Repr

/-- The `POST /api/users` handler (routes.ts, lines 186-217), running over
the file backend, after the body has been parsed into an `InsertUser`.
`hashed` stands for the `bcrypt.hash` of the submitted password and
`genId`/`now` feed `FileStorage.createUser`.  The referential check on the
team only runs when `userData.role === "Field" && userData.teamId`, i.e.
when the submitted team id is present and non-empty (JS truthiness). -/
def createUserRoute (st : FileState) (userData : InsertUser) (hashed genId : String)
    (now : Nat) : FileState × CreateUserResult :=
  let check : Option String :=
    if userData.role == "Field" && jsTruthy userData.teamId then
      let t := userData.teamId.getD ""
      if !isValidObjectId t then some "Invalid team ID format"
      else
        match FileStorage.getTeam st t with
        | none => some "Team does not exist"
        | some team =>
          if team.status != "Approved" then some "Team is not approved for registration"
          else none
    else none
  match check with
  | some msg => (st, .badRequest msg)
  | none =>
    let (st', user) := FileStorage.createUser st { userData with password := hashed } genId now
    (st', .created user)

/-- Modelled from the spec: `bulkUpdateTaskStatus` is implemented only by
the database backend (`mongoStorage.ts`), which is not under `src/`.  Per
spec section 4.5 it "applies the status change independently to each
existing id, skipping ids that do not resolve to a task, and returns the
count of tasks actually mutated"; each mutation refreshes `updatedAt`
(section 4.2). -/
def bulkUpdateTaskStatus (tasks : List (String × Task)) (ids : List String)
    (status : String) (now : Nat) : List (String × Task) × Nat :=
  match ids with
  | [] => (tasks, 0)
  | id :: rest =>
    match mapGet tasks id with
    | none => bulkUpdateTaskStatus tasks rest status now
    | some t =>
      let r := bulkUpdateTaskStatus
        (mapSet tasks id { t with status := status, updatedAt := now }) rest status now
      (r.1, r.2 + 1)

/-- Outcome of the `PATCH /api/tasks/bulk-status` handler. -/
inductive BulkResult where
  | badRequest (msg : String)
  | ok (updatedCount : Nat)
deriving DecidableEq, Repr

/-- The `PATCH /api/tasks/bulk-status` handler (routes.ts, lines 890-915)
over the task collection: rejects an empty id array and a falsy status,
then rejects the whole request if any id fails `isValidObjectId`, and only
then delegates to the storage's `bulkUpdateTaskStatus`. -/
def bulkStatusRoute (tasks : List (String × Task)) (taskIds : List String)
    (status : String) (now : Nat) : List (String × Task) × BulkResult :=
  if taskIds.isEmpty then (tasks, .badRequest "Task IDs array is required")
  else if status == "" then (tasks, .badRequest "Status is required")
  else
    let invalidIds := taskIds.filter fun id => !isValidObjectId id
    if invalidIds.length > 0 then (tasks, .badRequest "Invalid task ID format")
    else
      let (tasks', count) := bulkUpdateTaskStatus tasks taskIds status now
      (tasks', .ok count)

/-! ## Map lemmas -/

theorem mapGet_mapSet_self {α : Type} (m : List (String × α)) (k : String) (v : α) :
    mapGet (mapSet m k v) k = some v := by
  induction m with
  | nil => simp [mapGet, mapSet, List.find?]
  | cons hd tl ih =>
    by_cases h : hd.1 = k
    · simp [mapGet, mapSet, h, List.find?]
    · have h' : (hd.1 == k) = false := beq_eq_false_iff_ne.mpr h
      simpa [mapGet, mapSet, h', List.find?] using ih

theorem mapGet_mapSet_ne {α : Type} (m : List (String × α)) (k k' : String) (v : α)
    (h : k' ≠ k) : mapGet (mapSet m k v) k' = mapGet m k' := by
  induction m with
  | nil => simp [mapGet, mapSet, List.find?, beq_eq_false_iff_ne.mpr (Ne.symm h)]
  | cons hd tl ih =>
    by_cases hh : hd.1 = k
    · subst hh
      simp [mapGet, mapSet, List.find?, beq_eq_false_iff_ne.mpr (Ne.symm h)]
    · have h1 : (hd.1 == k) = false := beq_eq_false_iff_ne.mpr hh
      by_cases hk : hd.1 = k'
      · simp [mapGet, mapSet, h1, List.find?, hk, h]
      · have h2 : (hd.1 == k') = false := beq_eq_false_iff_ne.mpr hk
        simpa [mapGet, mapSet, h1, h2, List.find?] using ih

theorem mapSet_of_not_mem {α : Type} (m : List (String × α)) (k : String) (v : α)
    (h : mapGet m k = none) : mapSet m k v = m ++ [(k, v)] := by
  induction m with
  | nil => simp [mapSet]
  | cons hd tl ih =>
    by_cases hh : hd.1 = k
    · simp [mapGet, List.find?, hh] at h
    · have h1 : (hd.1 == k) = false := beq_eq_false_iff_ne.mpr hh
      have h' : mapGet tl k = none := by
        simpa [mapGet, List.find?, h1] using h
      simp [mapSet, h1, ih h']

/-! ## Hex-encoding lemmas -/

theorem natToHex_of_lt {n : Nat} (h : n < 16) : natToHex n = [toHexDigitChar n] := by
  rw [natToHex]
  simp [h]

theorem natToHex_of_ge {n : Nat} (h : ¬n < 16) :
    natToHex n = natToHex (n / 16) ++ [toHexDigitChar (n % 16)] := by
  conv_lhs => rw [natToHex]
  simp [h]

theorem natToHexPadL_zero (w : Nat) : natToHexPadL w 0 = List.replicate w '0' := by
  induction w with
  | zero => rfl
  | succ w ih =>
    rw [natToHexPadL, List.replicate_succ']
    simp [ih]
    rfl

theorem length_natToHexPadL (w n : Nat) : (natToHexPadL w n).length = w := by
  induction w generalizing n with
  | zero => rfl
  | succ w ih => simp [natToHexPadL, ih]

theorem toHexDigitChar_zero : toHexDigitChar 0 = '0' := by decide

theorem toHexDigitChar_lt_mono :
    ∀ a < 16, ∀ b < 16, a < b → toHexDigitChar a < toHexDigitChar b := by decide

theorem toHexDigitChar_injOn :
    ∀ a < 16, ∀ b < 16, toHexDigitChar a = toHexDigitChar b → a = b := by decide

theorem isLowerHexChar_toHexDigitChar : ∀ a < 16, isLowerHexChar (toHexDigitChar a) = true := by
  decide

theorem jsToStringHexPad_eq_padL :
    ∀ w n, n < 16 ^ (w + 1) → jsToStringHexPad (w + 1) n = natToHexPadL (w + 1) n := by
  intro w
  induction w with
  | zero =>
    intro n h
    have h16 : n < 16 := by simpa using h
    simp [jsToStringHexPad, padStartChars, natToHex_of_lt h16, natToHexPadL,
      Nat.mod_eq_of_lt h16]
  | succ w ih =>
    intro n h
    by_cases hn : n < 16
    · have hq : n / 16 = 0 := Nat.div_eq_of_lt hn
      have hm : n % 16 = n := Nat.mod_eq_of_lt hn
      simp [jsToStringHexPad, padStartChars, natToHex_of_lt hn, natToHexPadL, hq, hm,
        natToHexPadL_zero, List.replicate_succ', toHexDigitChar_zero]
    · have hdiv : n / 16 < 16 ^ (w + 1) := by
        rw [Nat.div_lt_iff_lt_mul (by norm_num)]
        calc n < 16 ^ (w + 1 + 1) := h
          _ = 16 ^ (w + 1) * 16 := by ring
      have hrec := ih (n / 16) hdiv
      rw [natToHexPadL, ← hrec]
      simp only [jsToStringHexPad, padStartChars, natToHex_of_ge hn]
      rw [List.length_append, List.length_singleton]
      have hsub : w + 1 + 1 - ((natToHex (n / 16)).length + 1) =
          w + 1 - (natToHex (n / 16)).length := by omega
      rw [hsub, List.append_assoc]

theorem mem_natToHexPadL_lowerHex :
    ∀ w n c, c ∈ natToHexPadL w n → isLowerHexChar c = true := by
  intro w
  induction w with
  | zero => intro n c hc; simp [natToHexPadL] at hc
  | succ w ih =>
    intro n c hc
    rw [natToHexPadL] at hc
    rcases List.mem_append.mp hc with h | h
    · exact ih _ _ h
    · rcases List.mem_singleton.mp h with rfl
      exact isLowerHexChar_toHexDigitChar _ (Nat.mod_lt _ (by norm_num))

theorem natToHexPadL_injOn :
    ∀ w a b, a < 16 ^ w → b < 16 ^ w → natToHexPadL w a = natToHexPadL w b → a = b := by
  intro w
  induction w with
  | zero =>
    intro a b ha hb _
    omega
  | succ w ih =>
    intro a b ha hb heq
    rw [natToHexPadL, natToHexPadL] at heq
    have hlen : (natToHexPadL w (a / 16)).length = (natToHexPadL w (b / 16)).length := by
      rw [length_natToHexPadL, length_natToHexPadL]
    obtain ⟨hpre, hdig⟩ := List.append_inj heq hlen
    have hda : a / 16 < 16 ^ w := by
      rw [Nat.div_lt_iff_lt_mul (by norm_num)]
      calc a < 16 ^ (w + 1) := ha
        _ = 16 ^ w * 16 := by ring
    have hdb : b / 16 < 16 ^ w := by
      rw [Nat.div_lt_iff_lt_mul (by norm_num)]
      calc b < 16 ^ (w + 1) := hb
        _ = 16 ^ w * 16 := by ring
    have hq : a / 16 = b / 16 := ih _ _ hda hdb hpre
    have hr : a % 16 = b % 16 := by
      apply toHexDigitChar_injOn _ (Nat.mod_lt _ (by norm_num)) _ (Nat.mod_lt _ (by norm_num))
      simpa using hdig
    have ha' := Nat.div_add_mod a 16
    have hb' := Nat.div_add_mod b 16
    omega

theorem lex_append_of_lex {α : Type} {r : α → α → Prop} :
    ∀ {l₁ l₂ : List α}, List.Lex r l₁ l₂ → l₁.length = l₂.length →
      ∀ t₁ t₂, List.Lex r (l₁ ++ t₁) (l₂ ++ t₂) := by
  intro l₁ l₂ h
  induction h with
  | nil => intro hlen; simp at hlen
  | @cons a as bs h ih =>
    intro hlen t₁ t₂
    exact List.Lex.cons (ih (by simpa using hlen) t₁ t₂)
  | rel h => intro _ t₁ t₂; exact List.Lex.rel h

theorem lex_append_last {α : Type} {r : α → α → Prop} (x y : α) (h : r x y) :
    ∀ L : List α, List.Lex r (L ++ [x]) (L ++ [y]) := by
  intro L
  induction L with
  | nil => exact List.Lex.rel h
  | cons c L ih => exact List.Lex.cons ih

theorem natToHexPadL_lex_lt :
    ∀ w a b, a < b → b < 16 ^ w →
      List.Lex (· < ·) (natToHexPadL w a) (natToHexPadL w b) := by
  intro w
  induction w with
  | zero => intro a b hab hb; omega
  | succ w ih =>
    intro a b hab hb
    have hbq : b / 16 < 16 ^ w := by
      rw [Nat.div_lt_iff_lt_mul (by norm_num)]
      calc b < 16 ^ (w + 1) := hb
        _ = 16 ^ w * 16 := by ring
    have hdiv : a / 16 ≤ b / 16 := Nat.div_le_div_right (Nat.le_of_lt hab)
    rcases Nat.lt_or_ge (a / 16) (b / 16) with hlt | hge
    · rw [natToHexPadL, natToHexPadL]
      exact lex_append_of_lex (ih _ _ hlt hbq)
        (by rw [length_natToHexPadL, length_natToHexPadL]) _ _
    · have hq : a / 16 = b / 16 := Nat.le_antisymm hdiv hge
      have ha' := Nat.div_add_mod a 16
      have hb' := Nat.div_add_mod b 16
      have hmod : a % 16 < b % 16 := by omega
      rw [natToHexPadL, natToHexPadL, hq]
      exact lex_append_last _ _
        (toHexDigitChar_lt_mono _ (Nat.mod_lt _ (by norm_num)) _
          (Nat.mod_lt _ (by norm_num)) hmod) _

theorem isHexChar_of_lower {c : Char} (h : isLowerHexChar c = true) : isHexChar c = true := by
  simp only [isLowerHexChar, Bool.or_eq_true, Bool.and_eq_true] at h
  simp only [isHexChar, Bool.or_eq_true, Bool.and_eq_true]
  tauto

theorem generateObjectId_data {ts m p c : Nat} (hts : ts < 16 ^ 8) (hm : m < 16 ^ 6)
    (hp : p < 16 ^ 4) (hc : c < 16 ^ 6) :
    (generateObjectId ts m p c).data =
      natToHexPadL 8 ts ++ natToHexPadL 6 m ++ natToHexPadL 4 p ++ natToHexPadL 6 c := by
  have h8 : jsToStringHexPad 8 ts = natToHexPadL 8 ts := jsToStringHexPad_eq_padL 7 ts hts
  have h6 : jsToStringHexPad 6 m = natToHexPadL 6 m := jsToStringHexPad_eq_padL 5 m hm
  have h4 : jsToStringHexPad 4 p = natToHexPadL 4 p := jsToStringHexPad_eq_padL 3 p hp
  have h6' : jsToStringHexPad 6 c = natToHexPadL 6 c := jsToStringHexPad_eq_padL 5 c hc
  simp [generateObjectId, h8, h6, h4, h6']

theorem generateObjectId_length {ts m p c : Nat} (hts : ts < 16 ^ 8) (hm : m < 16 ^ 6)
    (hp : p < 16 ^ 4) (hc : c < 16 ^ 6) : (generateObjectId ts m p c).length = 24 := by
  have h := generateObjectId_data hts hm hp hc
  simp only [String.length, h]
  simp [length_natToHexPadL]

theorem generateObjectId_lowerHex {ts m p c : Nat} (hts : ts < 16 ^ 8) (hm : m < 16 ^ 6)
    (hp : p < 16 ^ 4) (hc : c < 16 ^ 6) :
    ∀ ch ∈ (generateObjectId ts m p c).data, isLowerHexChar ch = true := by
  intro ch hch
  rw [generateObjectId_data hts hm hp hc] at hch
  simp only [List.mem_append] at hch
  rcases hch with ((h | h) | h) | h <;> exact mem_natToHexPadL_lowerHex _ _ _ h

theorem generateObjectId_isValid {ts m p c : Nat} (hts : ts < 16 ^ 8) (hm : m < 16 ^ 6)
    (hp : p < 16 ^ 4) (hc : c < 16 ^ 6) :
    isValidObjectId (generateObjectId ts m p c) = true := by
  have hlen := generateObjectId_length hts hm hp hc
  have hhex := generateObjectId_lowerHex hts hm hp hc
  simp only [isValidObjectId, Bool.and_eq_true, beq_iff_eq, List.all_eq_true]
  exact ⟨hlen, fun ch hch => isHexChar_of_lower (hhex ch hch)⟩

theorem string_mk_le_of_le (l₁ l₂ : List Char) (h : l₁ = l₂ ∨ List.Lex (· < ·) l₁ l₂) :
    (⟨l₁⟩ : String) ≤ ⟨l₂⟩ := by
  rcases h with rfl | h
  · exact le_refl _
  · apply le_of_lt
    rw [String.lt_iff_toList_lt]
    exact h

/-! ## Sample data for witnesses and counterexamples -/

/-- A well-formed 24-hex id. -/
def hexIdA : String := "0123456789abcdef01234567"

/-- Another well-formed 24-hex id. -/
def hexIdB : String := "89abcdef0123456789abcdef"

/-- A third well-formed 24-hex id. -/
def hexIdC : String := "00000000aaaabbbbccccdddd"

/-- A sample file-backend task stored under `hexIdA`. -/
def witTask : Task :=
  { _id := hexIdA, title := "inspect tower", description := none, status := "In Progress"
    priority := "High", createdBy := none, assignedTo := none, dueDate := none
    location := none, boundaryId := none, featureId := none, createdAt := 3, updatedAt := 4 }

/-- A sample in-memory-backend task stored under `task_000001`. -/
def witMemTask : MemTask :=
  { _id := "task_000001", title := "inspect tower", description := none
    status := some "In Progress", priority := "High", createdBy := none, assignedTo := none
    dueDate := none, location := none, boundaryId := none, featureId := none
    createdAt := 3, updatedAt := 4 }

/-- A sample user stored under `hexIdB`. -/
def witUser : User :=
  { _id := hexIdB, username := "alice", password := "pw", name := "Alice", email := "a@x.io"
    role := "Field", teamId := none, lastActive := none, currentLocation := none
    createdAt := 1, updatedAt := 1 }

/-- A file-backend state holding `witTask` and `witUser`. -/
def witFileState : FileState :=
  { users := [(hexIdB, witUser)], tasks := [(hexIdA, witTask)], features := []
    boundaries := [], taskUpdates := [], taskEvidence := [], teams := [] }

/-- An in-memory-backend state holding `witMemTask` and a user under
`user_000001`. -/
def witMemState : MemState :=
  { users := [("user_000001", { witUser with _id := "user_000001" })], teams := []
    tasks := [("task_000001", witMemTask)], taskUpdates := []
    userCurrentId := 2, teamCurrentId := 1, taskCurrentId := 2, taskUpdateCurrentId := 1 }

/-- A sample task-creation payload. -/
def witInsertTask : InsertTask :=
  { title := "survey plot", description := some "north side", status := some "Unassigned"
    priority := "Medium", createdBy := some hexIdB, assignedTo := none, dueDate := some 9
    location := some { coordinates := (31, 74) }, boundaryId := none, featureId := none }

/-! ## Claim theorems -/

/-- Claim C5 (confirmed): for every creation input, `createTask` followed by
`getTask` at the returned entity's id yields that same entity (equal in
every field, being the very record `createTask` returned), with
`createdAt ≤ updatedAt` — on the file backend (whose generated ObjectId
passes `isValidObjectId`) and on the in-memory backend alike. -/
theorem create_then_get_roundtrip
    (st : FileState) (ins : InsertTask) (ts m p c now : Nat)
    (hts : ts < 16 ^ 8) (hm : m < 16 ^ 6) (hp : p < 16 ^ 4) (hc : c < 16 ^ 6)
    (mst : MemState) (mins : InsertTask) (mnow : Nat) :
    (FileStorage.getTask (FileStorage.createTask st ins (generateObjectId ts m p c) now).1
        (FileStorage.createTask st ins (generateObjectId ts m p c) now).2._id =
      some (FileStorage.createTask st ins (generateObjectId ts m p c) now).2 ∧
      (FileStorage.createTask st ins (generateObjectId ts m p c) now).2.createdAt ≤
        (FileStorage.createTask st ins (generateObjectId ts m p c) now).2.updatedAt) ∧
    (MemStorage.getTask (MemStorage.createTask mst mins mnow).1
        (MemStorage.createTask mst mins mnow).2._id =
      some (MemStorage.createTask mst mins mnow).2 ∧
      (MemStorage.createTask mst mins mnow).2.createdAt ≤
        (MemStorage.createTask mst mins mnow).2.updatedAt) := by
  refine ⟨⟨?_, le_refl now⟩, ⟨?_, le_refl mnow⟩⟩
  · simp only [FileStorage.createTask, FileStorage.getTask,
      generateObjectId_isValid hts hm hp hc, Bool.not_true, Bool.false_eq_true, if_neg,
      Bool.not_eq_true']
    exact mapGet_mapSet_self _ _ _
  · simp only [MemStorage.createTask, MemStorage.getTask]
    exact mapGet_mapSet_self _ _ _

/-- Witness for `create_then_get_roundtrip` at concrete inputs. -/
theorem create_then_get_roundtrip_witness :
    ((1 : Nat) < 16 ^ 8 ∧ (2 : Nat) < 16 ^ 6 ∧ (3 : Nat) < 16 ^ 4 ∧ (4 : Nat) < 16 ^ 6) ∧
    (FileStorage.getTask
        (FileStorage.createTask witFileState witInsertTask (generateObjectId 1 2 3 4) 7).1
        (FileStorage.createTask witFileState witInsertTask (generateObjectId 1 2 3 4) 7).2._id =
      some (FileStorage.createTask witFileState witInsertTask (generateObjectId 1 2 3 4) 7).2 ∧
      MemStorage.getTask (MemStorage.createTask witMemState witInsertTask 7).1
        (MemStorage.createTask witMemState witInsertTask 7).2._id =
      some (MemStorage.createTask witMemState witInsertTask 7).2) :=
  ⟨⟨by decide, by decide, by decide, by decide⟩,
    let h := create_then_get_roundtrip witFileState witInsertTask 1 2 3 4 7
      (by decide) (by decide) (by decide) (by decide) witMemState witInsertTask 7
    ⟨h.1.1, h.2.1⟩⟩

/-- Claim C6 (confirmed): on an existing task, `assignTask(id, userId)` sets
`status` to `"Assigned"` and `assignedTo` to the given user, whatever the
prior status was (the hypotheses place no constraint on it) — on both the
file backend and the in-memory backend. -/
theorem assignTask_forces_assigned
    (st : FileState) (id userId : String) (task : Task) (now : Nat)
    (h1 : isValidObjectId id = true) (h2 : isValidObjectId userId = true)
    (h3 : mapGet st.tasks id = some task)
    (mst : MemState) (mid muid : String) (mtask : MemTask) (mnow : Nat)
    (h4 : mapGet mst.tasks mid = some mtask) :
    FileStorage.assignTask st id userId now =
      .ok ({ st with tasks := mapSet st.tasks id { task with assignedTo := some userId, status := "Assigned", updatedAt := now } },
        { task with assignedTo := some userId, status := "Assigned", updatedAt := now }) ∧
    MemStorage.assignTask mst mid muid mnow =
      .ok ({ mst with tasks := mapSet mst.tasks mid { mtask with assignedTo := some muid, status := some "Assigned", updatedAt := mnow } },
        { mtask with assignedTo := some muid, status := some "Assigned", updatedAt := mnow }) := by
  constructor
  · simp [FileStorage.assignTask, h1, h2, h3]
  · simp [MemStorage.assignTask, h4]

/-- Witness for `assignTask_forces_assigned` at concrete inputs. -/
theorem assignTask_forces_assigned_witness :
    (isValidObjectId hexIdA = true ∧ isValidObjectId hexIdB = true ∧
      mapGet witFileState.tasks hexIdA = some witTask ∧
      mapGet witMemState.tasks "task_000001" = some witMemTask) ∧
    (FileStorage.assignTask witFileState hexIdA hexIdB 9 =
        .ok ({ witFileState with tasks := mapSet witFileState.tasks hexIdA { witTask with assignedTo := some hexIdB, status := "Assigned", updatedAt := 9 } },
          { witTask with assignedTo := some hexIdB, status := "Assigned", updatedAt := 9 }) ∧
      MemStorage.assignTask witMemState "task_000001" "user_000001" 9 =
        .ok ({ witMemState with tasks := mapSet witMemState.tasks "task_000001" { witMemTask with assignedTo := some "user_000001", status := some "Assigned", updatedAt := 9 } },
          { witMemTask with assignedTo := some "user_000001", status := some "Assigned", updatedAt := 9 })) :=
  ⟨⟨by decide, by decide, by decide, by decide⟩,
    assignTask_forces_assigned witFileState hexIdA hexIdB witTask 9 (by decide) (by decide)
      (by decide) witMemState "task_000001" "user_000001" witMemTask 9 (by decide)⟩

/-- Claim C9 (confirmed): in the file backend, `updateUserLocation` on an
existing user stores a `Point` whose coordinate pair is `(lng, lat)` —
longitude first — refreshes `lastActive` and `updatedAt` to the current
time, and changes nothing else: every other field of the user is
unchanged, every other user is unchanged, and every other collection of
the state is unchanged. -/
theorem updateUserLocation_point_and_frame
    (st : FileState) (id : String) (u : User) (lat lng : Int) (now : Nat)
    (h1 : isValidObjectId id = true) (h2 : mapGet st.users id = some u) :
    ∃ u' : User,
      FileStorage.updateUserLocation st id lat lng now =
        .ok ({ st with users := mapSet st.users id u' }, u') ∧
      u'.currentLocation = some { coordinates := (lng, lat) } ∧
      u'.lastActive = some now ∧ u'.updatedAt = now ∧
      u'._id = u._id ∧ u'.username = u.username ∧ u'.password = u.password ∧
      u'.name = u.name ∧ u'.email = u.email ∧ u'.role = u.role ∧
      u'.teamId = u.teamId ∧ u'.createdAt = u.createdAt ∧
      (∀ k, k ≠ id → mapGet (mapSet st.users id u') k = mapGet st.users k) ∧
      mapGet (mapSet st.users id u') id = some u' := by
  refine ⟨{ u with currentLocation := some { coordinates := (lng, lat) }, lastActive := some now, updatedAt := now }, ?_, rfl, rfl, rfl, rfl, rfl, rfl,
    rfl, rfl, rfl, rfl, rfl, fun k hk => mapGet_mapSet_ne _ _ _ _ hk,
    mapGet_mapSet_self _ _ _⟩
  simp [FileStorage.updateUserLocation, h1, h2]

/-- Witness for `updateUserLocation_point_and_frame` at concrete inputs. -/
theorem updateUserLocation_point_and_frame_witness :
    (isValidObjectId hexIdB = true ∧ mapGet witFileState.users hexIdB = some witUser) ∧
    (∃ u' : User,
      FileStorage.updateUserLocation witFileState hexIdB 31 74 8 =
        .ok ({ witFileState with users := mapSet witFileState.users hexIdB u' }, u') ∧
      u'.currentLocation = some { coordinates := (74, 31) } ∧
      u'.lastActive = some 8 ∧ u'.updatedAt = 8 ∧
      u'._id = witUser._id ∧ u'.username = witUser.username ∧
      u'.password = witUser.password ∧ u'.name = witUser.name ∧
      u'.email = witUser.email ∧ u'.role = witUser.role ∧
      u'.teamId = witUser.teamId ∧ u'.createdAt = witUser.createdAt ∧
      (∀ k, k ≠ hexIdB → mapGet (mapSet witFileState.users hexIdB u') k =
        mapGet witFileState.users k) ∧
      mapGet (mapSet witFileState.users hexIdB u') hexIdB = some u') :=
  ⟨⟨by decide, by decide⟩,
    updateUserLocation_point_and_frame witFileState hexIdB witUser 31 74 8 (by decide)
      (by decide)⟩

/-- Claim C10 (confirmed): the file backend's `assignUserToTeam` never
resolves the team id — for an existing user and any well-formed team id it
succeeds and stores that team id even though no team has it — whereas the
in-memory backend resolves the team and fails with an error when it is
missing. -/
theorem assignUserToTeam_divergence
    (st : FileState) (userId teamId : String) (u : User) (now : Nat)
    (h1 : isValidObjectId userId = true) (h2 : isValidObjectId teamId = true)
    (h3 : mapGet st.users userId = some u) (h4 : mapGet st.teams teamId = none)
    (mst : MemState) (muid mtid : String) (mu : User) (mnow : Nat)
    (h5 : mapGet mst.users muid = some mu) (h6 : mapGet mst.teams mtid = none) :
    FileStorage.assignUserToTeam st userId teamId now =
      .ok ({ st with users := mapSet st.users userId { u with teamId := some teamId, updatedAt := now } },
        { u with teamId := some teamId, updatedAt := now }) ∧
    MemStorage.assignUserToTeam mst muid mtid mnow = .error "Team not found" := by
  constructor
  · simp [FileStorage.assignUserToTeam, h1, h2, h3]
  · simp [MemStorage.assignUserToTeam, h5, h6]

/-- Witness for `assignUserToTeam_divergence` at concrete inputs (no team
exists at all in either sample state). -/
theorem assignUserToTeam_divergence_witness :
    (isValidObjectId hexIdB = true ∧ isValidObjectId hexIdC = true ∧
      mapGet witFileState.users hexIdB = some witUser ∧
      mapGet witFileState.teams hexIdC = none ∧
      mapGet witMemState.users "user_000001" = some { witUser with _id := "user_000001" } ∧
      mapGet witMemState.teams "team_000001" = none) ∧
    (FileStorage.assignUserToTeam witFileState hexIdB hexIdC 6 =
        .ok ({ witFileState with users := mapSet witFileState.users hexIdB { witUser with teamId := some hexIdC, updatedAt := 6 } },
          { witUser with teamId := some hexIdC, updatedAt := 6 }) ∧
      MemStorage.assignUserToTeam witMemState "user_000001" "team_000001" 6 =
        .error "Team not found") :=
  ⟨⟨by decide, by decide, by decide, by decide, by decide, by decide⟩,
    assignUserToTeam_divergence witFileState hexIdB hexIdC witUser 6 (by decide) (by decide)
      (by decide) (by decide) witMemState "user_000001" "team_000001"
      { witUser with _id := "user_000001" } 6 (by decide) (by decide)⟩

/-- The in-memory state after completing `witMemTask`. -/
def witMemStateDone : MemState :=
  { witMemState with tasks := mapSet witMemState.tasks "task_000001" { witMemTask with status := some "Completed", updatedAt := 9 } }

/-- `witMemTask` after its status is set to Completed. -/
def witMemTaskDone : MemTask :=
  { witMemTask with status := some "Completed", updatedAt := 9 }

/-- Claim C1, counterexample: on the in-memory backend a successful
`updateTaskStatus` appends no `TaskUpdate` at all — the call on a state
with one task and no audit records succeeds (the status does become
`"Completed"`) and the audit collection still has zero records, not one. -/
theorem updateTaskStatus_no_audit_on_mem :
    (MemStorage.updateTaskStatus witMemState "task_000001" "Completed" "user_000001" 9).map
        (fun r => (r.1.taskUpdates.length, r.2.status)) = .ok (0, some "Completed") ∧
    witMemState.taskUpdates.length = 0 :=
  ⟨rfl, rfl⟩

/-- Claim C1, amended: on the file backend, every successful
`updateTaskStatus(id, newStatus, userId)` appends exactly one `TaskUpdate`
whose `taskId` is `id`, whose `oldStatus` is the task's status immediately
before the write, whose `newStatus` is the requested status and whose
comment is `"Status updated to {newStatus}"`; the in-memory backend's
`updateTaskStatus` leaves the audit collection unchanged.  (The freshness
hypothesis on the generated audit id reflects that `Map.set` with a
colliding key would replace instead of append.) -/
theorem updateTaskStatus_audit_amended
    (st : FileState) (id status userId : String) (task : Task) (now : Nat) (genId : String)
    (h1 : isValidObjectId id = true) (h2 : isValidObjectId userId = true)
    (h3 : mapGet st.tasks id = some task) (h4 : mapGet st.taskUpdates genId = none)
    (mst : MemState) (mid mstatus muid : String) (mnow : Nat) (mst' : MemState)
    (mtask' : MemTask)
    (h5 : MemStorage.updateTaskStatus mst mid mstatus muid mnow = .ok (mst', mtask')) :
    (∃ st' : FileState,
      FileStorage.updateTaskStatus st id status userId now genId =
        .ok (st', { task with status := status, updatedAt := now }) ∧
      st'.taskUpdates = st.taskUpdates ++
        [(genId, { _id := genId, taskId := id, userId := userId, comment := some ("Status updated to " ++ status), oldStatus := some task.status, newStatus := some status, createdAt := now })] ∧
      st'.tasks = mapSet st.tasks id { task with status := status, updatedAt := now }) ∧
    mst'.taskUpdates = mst.taskUpdates := by
  constructor
  · refine ⟨{ st with tasks := mapSet st.tasks id { task with status := status, updatedAt := now }, taskUpdates := mapSet st.taskUpdates genId { _id := genId, taskId := id, userId := userId, comment := some ("Status updated to " ++ status), oldStatus := some task.status, newStatus := some status, createdAt := now } }, ?_, ?_, rfl⟩
    · simp [FileStorage.updateTaskStatus, FileStorage.createTaskUpdate, h1, h2, h3]
    · exact mapSet_of_not_mem _ _ _ h4
  · cases hmem : mapGet mst.tasks mid with
    | none => simp [MemStorage.updateTaskStatus, hmem] at h5
    | some mt =>
      simp only [MemStorage.updateTaskStatus, hmem, Except.ok.injEq, Prod.mk.injEq] at h5
      obtain ⟨h5a, _⟩ := h5
      rw [← h5a]

/-- Witness for `updateTaskStatus_audit_amended` at concrete inputs. -/
theorem updateTaskStatus_audit_amended_witness :
    (isValidObjectId hexIdA = true ∧ isValidObjectId hexIdB = true ∧
      mapGet witFileState.tasks hexIdA = some witTask ∧
      mapGet witFileState.taskUpdates hexIdC = none ∧
      MemStorage.updateTaskStatus witMemState "task_000001" "Completed" "user_000001" 9 =
        .ok (witMemStateDone, witMemTaskDone)) ∧
    ((∃ st' : FileState,
      FileStorage.updateTaskStatus witFileState hexIdA "Completed" hexIdB 9 hexIdC =
        .ok (st', { witTask with status := "Completed", updatedAt := 9 }) ∧
      st'.taskUpdates = witFileState.taskUpdates ++
        [(hexIdC, { _id := hexIdC, taskId := hexIdA, userId := hexIdB, comment := some ("Status updated to " ++ "Completed"), oldStatus := some witTask.status, newStatus := some "Completed", createdAt := 9 })] ∧
      st'.tasks = mapSet witFileState.tasks hexIdA { witTask with status := "Completed", updatedAt := 9 }) ∧
    witMemStateDone.taskUpdates = witMemState.taskUpdates) :=
  ⟨⟨by decide, by decide, by decide, by decide, rfl⟩,
    updateTaskStatus_audit_amended witFileState hexIdA "Completed" hexIdB witTask 9 hexIdC
      (by decide) (by decide) (by decide) (by decide) witMemState "task_000001" "Completed"
      "user_000001" 9 witMemStateDone witMemTaskDone rfl⟩

/-- Claim C2 (confirmed): the `POST /api/users` pipeline validates the team
reference before any insertion.  When the submitted role is `"Field"` and a
team id is provided (present and non-empty — an empty string is JS-falsy
and is treated as "no team reference" by both the handler and
`createUser`): a malformed team id, a missing team, and a `"Pending"` team
each produce a client error with the state unchanged (no user inserted),
while an `"Approved"` team lets the user be created and inserted, carrying
that team id. -/
theorem createUser_validates_team
    (st : FileState) (userData : InsertUser) (hashed genId : String) (now : Nat) (t : String)
    (hrole : userData.role = "Field") (hteam : userData.teamId = some t) (hne : t ≠ "") :
    (isValidObjectId t = false →
      createUserRoute st userData hashed genId now = (st, .badRequest "Invalid team ID format")) ∧
    (isValidObjectId t = true → mapGet st.teams t = none →
      createUserRoute st userData hashed genId now = (st, .badRequest "Team does not exist")) ∧
    (∀ team : Team, isValidObjectId t = true → mapGet st.teams t = some team →
      team.status = "Pending" →
      createUserRoute st userData hashed genId now =
        (st, .badRequest "Team is not approved for registration")) ∧
    (∀ team : Team, isValidObjectId t = true → mapGet st.teams t = some team →
      team.status = "Approved" →
      ∃ user : User,
        createUserRoute st userData hashed genId now =
          ({ st with users := mapSet st.users genId user }, .created user) ∧
        mapGet (mapSet st.users genId user) genId = some user ∧
        user.role = "Field" ∧ user.teamId = some t ∧ user.password = hashed ∧
        user.username = userData.username) := by
  have htne : (t != "") = true := bne_iff_ne.mpr hne
  refine ⟨?_, ?_, ?_, ?_⟩
  · intro hbad
    simp [createUserRoute, hrole, hteam, jsTruthy, htne, hbad]
  · intro hok hnone
    simp [createUserRoute, hrole, hteam, jsTruthy, htne, hok, FileStorage.getTeam, hnone]
  · intro team hok hsome hpending
    simp [createUserRoute, hrole, hteam, jsTruthy, htne, hok, FileStorage.getTeam, hsome,
      hpending]
  · intro team hok hsome happroved
    refine ⟨{ _id := genId, username := userData.username, password := hashed, name := userData.name, email := userData.email, role := userData.role, teamId := some t, lastActive := none, currentLocation := none, createdAt := now, updatedAt := now }, ?_, mapGet_mapSet_self _ _ _, hrole, rfl, rfl, rfl⟩
    simp [createUserRoute, hrole, hteam, jsTruthy, htne, hok, FileStorage.getTeam, hsome,
      happroved, FileStorage.createUser, jsOptString, hne]

/-- Witness for `createUser_validates_team` at concrete inputs. -/
theorem createUser_validates_team_witness :
    (({ username := "bob", password := "pw", name := "Bob", email := "b@x.io", role := "Field", teamId := some hexIdC } : InsertUser).role = "Field" ∧
      ({ username := "bob", password := "pw", name := "Bob", email := "b@x.io", role := "Field", teamId := some hexIdC } : InsertUser).teamId = some hexIdC ∧
      hexIdC ≠ "") ∧
    (isValidObjectId hexIdC = true → mapGet witFileState.teams hexIdC = none →
      createUserRoute witFileState
          { username := "bob", password := "pw", name := "Bob", email := "b@x.io", role := "Field", teamId := some hexIdC }
          "hashedpw" hexIdA 11 =
        (witFileState, .badRequest "Team does not exist")) :=
  ⟨⟨by decide, by decide, by decide⟩,
    (createUser_validates_team witFileState
      { username := "bob", password := "pw", name := "Bob", email := "b@x.io", role := "Field", teamId := some hexIdC }
      "hashedpw" hexIdA 11 hexIdC (by decide) (by decide) (by decide)).2.1⟩

/-- Claim C4, counterexample: the in-memory backend's `getUser` performs no
id-format check.  Its own generated id `user_000001` is not 24-hex, yet
looking it up returns the stored user — a malformed id is not equivalent to
an absent id on that backend. -/
theorem getUser_malformed_mem_counterexample :
    isValidObjectId (MemStorage.generateId "user" 1) = false ∧
    (MemStorage.getUser witMemState (MemStorage.generateId "user" 1)).isSome = true :=
  ⟨rfl, rfl⟩

/-- Claim C4, amended: in the file backend, every id that fails the 24-hex
check is a deterministic "not found" for `getUser`, `getTask`,
`getFeature`, `getTeam` and `getBoundary` — the operations return nothing,
raise no error, and (being pure functions of the state) mutate nothing. -/
theorem getOps_malformed_not_found (st : FileState) (id : String)
    (h : isValidObjectId id = false) :
    FileStorage.getUser st id = none ∧ FileStorage.getTask st id = none ∧
    FileStorage.getFeature st id = none ∧ FileStorage.getTeam st id = none ∧
    FileStorage.getBoundary st id = none := by
  simp [FileStorage.getUser, FileStorage.getTask, FileStorage.getFeature,
    FileStorage.getTeam, FileStorage.getBoundary, h]

/-- Witness for `getOps_malformed_not_found` at concrete inputs. -/
theorem getOps_malformed_not_found_witness :
    isValidObjectId "user_000001" = false ∧
    (FileStorage.getUser witFileState "user_000001" = none ∧
      FileStorage.getTask witFileState "user_000001" = none ∧
      FileStorage.getFeature witFileState "user_000001" = none ∧
      FileStorage.getTeam witFileState "user_000001" = none ∧
      FileStorage.getBoundary witFileState "user_000001" = none) :=
  ⟨by decide, getOps_malformed_not_found witFileState "user_000001" (by decide)⟩

/-- Claim C8, counterexample: the file backend's `getUserByUsername`
compares usernames with strict equality.  With `"alice"` stored, the query
`"Alice"` — equal to the stored username up to letter case — returns
nothing instead of that user. -/
theorem getUserByUsername_case_counterexample :
    jsToLowerCase "Alice" = jsToLowerCase "alice" ∧ witUser.username = "alice" ∧
    mapGet witFileState.users hexIdB = some witUser ∧
    FileStorage.getUserByUsername witFileState "Alice" = none :=
  ⟨rfl, rfl, rfl, rfl⟩

/-- Claim C8, amended: the in-memory backend's `getUserByUsername` is
case-insensitive — whenever some stored user's username equals the query up
to letter case, it returns a user matching the query up to letter case —
while the file backend's `getUserByUsername` matches exactly: any user it
returns has username strictly equal to the query. -/
theorem getUserByUsername_casefold_amended
    (mst : MemState) (q : String) (u : User)
    (hu : u ∈ mapValues mst.users) (hq : jsToLowerCase u.username = jsToLowerCase q)
    (fst : FileState) :
    (∃ w : User, MemStorage.getUserByUsername mst q = some w ∧
      jsToLowerCase w.username = jsToLowerCase q) ∧
    (∀ v : User, FileStorage.getUserByUsername fst q = some v → v.username = q) := by
  constructor
  · have hsome :
        ((mapValues mst.users).find? fun user =>
          jsToLowerCase user.username == jsToLowerCase q).isSome = true := by
      rw [List.find?_isSome]
      exact ⟨u, hu, by rw [hq]; simp⟩
    obtain ⟨w, hw⟩ := Option.isSome_iff_exists.mp hsome
    refine ⟨w, hw, ?_⟩
    have hpw := List.find?_some hw
    simpa using hpw
  · intro v hv
    simp only [FileStorage.getUserByUsername] at hv
    have hpv := List.find?_some hv
    simpa using hpv

/-- Witness for `getUserByUsername_casefold_amended` at concrete inputs. -/
theorem getUserByUsername_casefold_amended_witness :
    ({ witUser with _id := "user_000001" } ∈ mapValues witMemState.users ∧
      jsToLowerCase ({ witUser with _id := "user_000001" } : User).username =
        jsToLowerCase "ALICE") ∧
    ((∃ w : User, MemStorage.getUserByUsername witMemState "ALICE" = some w ∧
        jsToLowerCase w.username = jsToLowerCase "ALICE") ∧
      (∀ v : User, FileStorage.getUserByUsername witFileState "ALICE" = some v →
        v.username = "ALICE")) :=
  ⟨⟨by decide, by decide⟩,
    getUserByUsername_casefold_amended witMemState "ALICE" { witUser with _id := "user_000001" }
      (by decide) (by decide) witFileState⟩

/-- Behaviour of the spec-modelled `bulkUpdateTaskStatus` on duplicate-free
id lists: the returned count is the number of ids that resolve to a task,
tasks outside the list are untouched, ids resolving to no task stay
absent, and each resolving id's task gets the new status and a refreshed
`updatedAt`. -/
theorem bulkUpdateTaskStatus_spec (ids : List String) :
    ∀ (tasks : List (String × Task)) (status : String) (now : Nat), ids.Nodup →
      (bulkUpdateTaskStatus tasks ids status now).2 =
        (ids.filter fun id => (mapGet tasks id).isSome).length ∧
      (∀ k, k ∉ ids →
        mapGet (bulkUpdateTaskStatus tasks ids status now).1 k = mapGet tasks k) ∧
      (∀ k ∈ ids, mapGet tasks k = none →
        mapGet (bulkUpdateTaskStatus tasks ids status now).1 k = none) ∧
      (∀ k ∈ ids, ∀ t : Task, mapGet tasks k = some t →
        mapGet (bulkUpdateTaskStatus tasks ids status now).1 k =
          some { t with status := status, updatedAt := now }) := by
  induction ids with
  | nil =>
    intro tasks status now _
    refine ⟨rfl, fun k _ => rfl, ?_, ?_⟩ <;> simp
  | cons id rest ih =>
    intro tasks status now hnd
    obtain ⟨hid, hrest⟩ := List.nodup_cons.mp hnd
    cases hmem : mapGet tasks id with
    | none =>
      have hstep : bulkUpdateTaskStatus tasks (id :: rest) status now =
          bulkUpdateTaskStatus tasks rest status now := by
        simp [bulkUpdateTaskStatus, hmem]
      have IH := ih tasks status now hrest
      refine ⟨?_, ?_, ?_, ?_⟩
      · rw [hstep, IH.1, List.filter_cons]
        simp [hmem]
      · intro k hk
        rw [hstep]
        exact IH.2.1 k (fun hk' => hk (List.mem_cons_of_mem _ hk'))
      · intro k hk hkn
        rcases List.mem_cons.mp hk with rfl | hk'
        · rw [hstep, IH.2.1 k hid]
          exact hkn
        · rw [hstep]
          exact IH.2.2.1 k hk' hkn
      · intro k hk t ht
        rcases List.mem_cons.mp hk with rfl | hk'
        · rw [hmem] at ht
          exact absurd ht (by simp)
        · rw [hstep]
          exact IH.2.2.2 k hk' t ht
    | some t0 =>
      have hstep : bulkUpdateTaskStatus tasks (id :: rest) status now =
          ((bulkUpdateTaskStatus
              (mapSet tasks id { t0 with status := status, updatedAt := now })
              rest status now).1,
            (bulkUpdateTaskStatus
              (mapSet tasks id { t0 with status := status, updatedAt := now })
              rest status now).2 + 1) := by
        simp [bulkUpdateTaskStatus, hmem]
      have IH := ih (mapSet tasks id { t0 with status := status, updatedAt := now })
        status now hrest
      have hne_of_mem : ∀ i ∈ rest, i ≠ id := fun i hi hcontra => hid (hcontra ▸ hi)
      refine ⟨?_, ?_, ?_, ?_⟩
      · rw [hstep]
        simp only [IH.1, List.filter_cons]
        have hfc :
            (rest.filter fun i =>
              (mapGet (mapSet tasks id { t0 with status := status, updatedAt := now }) i).isSome) =
            rest.filter fun i => (mapGet tasks i).isSome := by
          apply List.filter_congr
          intro i hi
          rw [mapGet_mapSet_ne tasks id i _ (hne_of_mem i hi)]
        rw [hfc]
        simp [hmem]
      · intro k hk
        have hkid : k ≠ id := fun hcontra => hk (hcontra ▸ List.mem_cons_self _ _)
        have hkrest : k ∉ rest := fun hk' => hk (List.mem_cons_of_mem _ hk')
        rw [hstep]
        simp only []
        rw [IH.2.1 k hkrest, mapGet_mapSet_ne tasks id k _ hkid]
      · intro k hk hkn
        rcases List.mem_cons.mp hk with rfl | hk'
        · rw [hmem] at hkn
          simp at hkn
        · have hkid : k ≠ id := hne_of_mem k hk'
          rw [hstep]
          simp only []
          exact IH.2.2.1 k hk'
            (by rw [mapGet_mapSet_ne tasks id k _ hkid]; exact hkn)
      · intro k hk t ht
        rcases List.mem_cons.mp hk with rfl | hk'
        · rw [hmem] at ht
          have ht0 : t0 = t := by injection ht
          subst ht0
          rw [hstep]
          simp only []
          rw [IH.2.1 k hid]
          exact mapGet_mapSet_self tasks k _
        · have hkid : k ≠ id := hne_of_mem k hk'
          rw [hstep]
          simp only []
          exact IH.2.2.2 k hk' t
            (by rw [mapGet_mapSet_ne tasks id k _ hkid]; exact ht)

/-- Claim C3 (confirmed): the bulk-status route validates every id's
format before mutating anything — one malformed id fails the whole request
with a validation error and leaves every task, including those named by the
well-formed ids of the same call, unchanged; with all ids well-formed and
distinct, the status change is applied independently to each id that
resolves to a task, non-resolving ids are skipped, and the returned count
is the number of tasks actually mutated. -/
theorem bulkStatusRoute_validates_and_counts
    (tasks : List (String × Task)) (taskIds : List String) (status : String) (now : Nat)
    (hne : taskIds ≠ []) (hst : status ≠ "") :
    ((∃ bad ∈ taskIds, isValidObjectId bad = false) →
      bulkStatusRoute tasks taskIds status now =
        (tasks, .badRequest "Invalid task ID format")) ∧
    ((∀ id ∈ taskIds, isValidObjectId id = true) → taskIds.Nodup →
      ∃ tasks' : List (String × Task),
        bulkStatusRoute tasks taskIds status now =
          (tasks', .ok (taskIds.filter fun id => (mapGet tasks id).isSome).length) ∧
        (∀ k, k ∉ taskIds → mapGet tasks' k = mapGet tasks k) ∧
        (∀ k ∈ taskIds, ∀ t : Task, mapGet tasks k = some t →
          mapGet tasks' k = some { t with status := status, updatedAt := now }) ∧
        (∀ k ∈ taskIds, mapGet tasks k = none → mapGet tasks' k = none)) := by
  have hempty : taskIds.isEmpty = false := by
    cases taskIds with
    | nil => exact absurd rfl hne
    | cons a l => rfl
  have hst' : (status == "") = false := beq_eq_false_iff_ne.mpr hst
  constructor
  · rintro ⟨bad, hbadmem, hbadval⟩
    have hmem2 : bad ∈ taskIds.filter fun id => !isValidObjectId id :=
      List.mem_filter.mpr ⟨hbadmem, by simp [hbadval]⟩
    have hpos : 0 < (taskIds.filter fun id => !isValidObjectId id).length :=
      List.length_pos_of_mem hmem2
    simp [bulkStatusRoute, hempty, hst', hpos]
  · intro hall hnd
    have hnil : (taskIds.filter fun id => !isValidObjectId id) = [] := by
      rw [List.filter_eq_nil]
      intro a ha
      simp [hall a ha]
    have hspec := bulkUpdateTaskStatus_spec taskIds tasks status now hnd
    refine ⟨(bulkUpdateTaskStatus tasks taskIds status now).1, ?_, hspec.2.1,
      hspec.2.2.2, hspec.2.2.1⟩
    rw [← hspec.1]
    simp [bulkStatusRoute, hempty, hst', hnil]

/-- Witness for `bulkStatusRoute_validates_and_counts` at concrete inputs:
a batch naming the stored task `hexIdA`, an absent well-formed id `hexIdC`,
and, in the failing instance, the malformed id `oops`. -/
theorem bulkStatusRoute_validates_and_counts_witness :
    ([hexIdA, hexIdC, "oops"] ≠ ([] : List String) ∧ "Completed" ≠ "" ∧
      "oops" ∈ [hexIdA, hexIdC, "oops"] ∧ isValidObjectId "oops" = false) ∧
    (bulkStatusRoute witFileState.tasks [hexIdA, hexIdC, "oops"] "Completed" 9 =
      (witFileState.tasks, .badRequest "Invalid task ID format")) :=
  ⟨⟨by decide, by decide, by decide, by decide⟩,
    (bulkStatusRoute_validates_and_counts witFileState.tasks [hexIdA, hexIdC, "oops"]
      "Completed" 9 (by decide) (by decide)).1 ⟨"oops", by decide, by decide⟩⟩

/-- Taking exactly the length of the left part of an append returns it. -/
theorem take_length_append {α : Type} (l₁ l₂ : List α) (n : Nat) (h : l₁.length = n) :
    (l₁ ++ l₂).take n = l₁ := by
  subst h
  exact List.take_left l₁ l₂

/-- The first 8 characters of a generated ObjectId are the fixed-width hex
rendering of its timestamp component (for any realistic timestamp, i.e.
below `16 ^ 8`, which JS seconds-since-epoch values satisfy until the year
2106). -/
theorem generateObjectId_take8 {ts : Nat} (hts : ts < 16 ^ 8) (m p c : Nat) :
    (generateObjectId ts m p c).data.take 8 = natToHexPadL 8 ts := by
  have h8 : jsToStringHexPad 8 ts = natToHexPadL 8 ts := jsToStringHexPad_eq_padL 7 ts hts
  have hlen : (natToHexPadL 8 ts).length = 8 := length_natToHexPadL 8 ts
  show (jsToStringHexPad 8 ts ++ jsToStringHexPad 6 m ++ jsToStringHexPad 4 p ++
      jsToStringHexPad 6 c).take 8 = natToHexPadL 8 ts
  rw [h8, List.append_assoc, List.append_assoc]
  exact take_length_append _ _ 8 hlen

/-- Claim C7 (confirmed): a generated ObjectId is a 24-character lowercase
hexadecimal string laid out as the 8-hex-digit fixed-width rendering of the
epoch-seconds timestamp, then 6 hex digits of the random machine component,
4 of the random process component and 6 of the random counter (each block
having exactly that width under the components' generation bounds); and for
two ids generated at non-decreasing wall-clock seconds, the 8-character
time prefixes compare in non-decreasing (lexicographic) string order. -/
theorem generateObjectId_format_and_monotone
    (ts m p c ts₁ m₁ p₁ c₁ ts₂ m₂ p₂ c₂ : Nat)
    (hts : ts < 16 ^ 8) (hm : m < 16 ^ 6) (hp : p < 16 ^ 4) (hc : c < 16 ^ 6)
    (hts₁ : ts₁ < 16 ^ 8) (hts₂ : ts₂ < 16 ^ 8) (hord : ts₁ ≤ ts₂) :
    ((generateObjectId ts m p c).length = 24 ∧
      (∀ ch ∈ (generateObjectId ts m p c).data, isLowerHexChar ch = true) ∧
      (generateObjectId ts m p c).data =
        natToHexPadL 8 ts ++ natToHexPadL 6 m ++ natToHexPadL 4 p ++ natToHexPadL 6 c ∧
      (natToHexPadL 8 ts).length = 8 ∧ (natToHexPadL 6 m).length = 6 ∧
      (natToHexPadL 4 p).length = 4 ∧ (natToHexPadL 6 c).length = 6) ∧
    (⟨(generateObjectId ts₁ m₁ p₁ c₁).data.take 8⟩ : String) ≤
      ⟨(generateObjectId ts₂ m₂ p₂ c₂).data.take 8⟩ := by
  refine ⟨⟨generateObjectId_length hts hm hp hc, generateObjectId_lowerHex hts hm hp hc,
    generateObjectId_data hts hm hp hc, length_natToHexPadL 8 ts, length_natToHexPadL 6 m,
    length_natToHexPadL 4 p, length_natToHexPadL 6 c⟩, ?_⟩
  rw [generateObjectId_take8 hts₁ m₁ p₁ c₁, generateObjectId_take8 hts₂ m₂ p₂ c₂]
  apply string_mk_le_of_le
  rcases Nat.eq_or_lt_of_le hord with heq | hlt
  · exact Or.inl (by rw [heq])
  · exact Or.inr (natToHexPadL_lex_lt 8 ts₁ ts₂ hlt hts₂)

/-- Witness for `generateObjectId_format_and_monotone` at concrete inputs. -/
theorem generateObjectId_format_and_monotone_witness :
    ((258 : Nat) < 16 ^ 8 ∧ (10 : Nat) < 16 ^ 6 ∧ (11 : Nat) < 16 ^ 4 ∧
      (12 : Nat) < 16 ^ 6 ∧ (5 : Nat) < 16 ^ 8 ∧ (600 : Nat) < 16 ^ 8 ∧ (5 : Nat) ≤ 600) ∧
    ((generateObjectId 258 10 11 12).length = 24 ∧
      (⟨(generateObjectId 5 0 0 0).data.take 8⟩ : String) ≤
        ⟨(generateObjectId 600 1 2 3).data.take 8⟩) :=
  ⟨⟨by decide, by decide, by decide, by decide, by decide, by decide, by decide⟩,
    let h := generateObjectId_format_and_monotone 258 10 11 12 5 0 0 0 600 1 2 3
      (by decide) (by decide) (by decide) (by decide) (by decide) (by decide) (by decide)
    ⟨h.1.1, h.2⟩⟩

end GeoTracker
